import Mathlib

/-!
Shallow embedding of the property-evaluation engine of the
`buscador-casita-chiquis` repository (source files `src/unnamed/part_002`,
`src/unnamed/part_001`, `src/docs/js/config.js`), together with proofs of the
testable properties stated in the specification.

JavaScript numbers are modelled as exact rationals (`ℚ`); `Math.round` is JS
half-up rounding `⌊x + 1/2⌋`.  Listing fields are strings; parse failures are
modelled with `Option`.
-/

namespace Casita

/-- JS `Math.round`: round half-up (halves go toward `+∞`). -/
def jround (q : ℚ) : ℤ := ⌊q + 1/2⌋

theorem jround_eval {q : ℚ} {n : ℤ} (h₁ : (n:ℚ) ≤ q + 1/2) (h₂ : q + 1/2 < (n:ℚ) + 1) :
    jround q = n := by
  unfold jround
  exact Int.floor_eq_iff.mpr ⟨h₁, h₂⟩

theorem jround_le (q : ℚ) : (jround q : ℚ) ≤ q + 1/2 := Int.floor_le _

theorem lt_jround (q : ℚ) : q - 1/2 < (jround q : ℚ) := by
  have := Int.lt_floor_add_one (q + 1/2)
  unfold jround
  linarith

theorem jround_mono {a b : ℚ} (h : a ≤ b) : jround a ≤ jround b := by
  unfold jround
  exact Int.floor_le_floor (by linarith)

theorem jround_nonneg {q : ℚ} (h : 0 ≤ q) : 0 ≤ jround q := by
  have h1 := lt_jround q
  have h2 : (-1 : ℚ) < (jround q : ℚ) := by linarith
  have h3 : (-1 : ℤ) < jround q := by exact_mod_cast h2
  omega

/-- JS `x || y` for numbers wrapped in `Option` (`null`/`undefined` ↦ `none`):
`0` is falsy, so both `none` and `some 0` fall back to the default. -/
def jsOrNum (x : Option ℚ) (dflt : ℚ) : ℚ :=
  match x with
  | none => dflt
  | some v => if v = 0 then dflt else v

/-- The fee-schedule / budget configuration (`DEFAULT_CONFIG` in
`src/unnamed/part_001`, mutable global `CONFIG` at runtime). -/
structure Config where
  creditoArs : ℚ
  dolarBase : ℚ
  presupuesto : ℚ
  escribano : ℚ
  sellosExento : ℚ
  sellos : ℚ
  registrales : ℚ
  inmob : ℚ
  hipoteca : ℚ
  certificados : ℚ
  negociacion : ℚ
  deriving Repr

/-- `DEFAULT_CONFIG` of `src/unnamed/part_001` (the config module paired with
the engine in `src/unnamed/part_002`). -/
def defaultConfig : Config :=
  { creditoArs := 126000000
    dolarBase := 1450
    presupuesto := 25000
    escribano := 242/10000
    sellosExento := 140000
    sellos := 175/10000
    registrales := 4/1000
    inmob := 484/10000
    hipoteca := 1/100
    certificados := 300
    negociacion := 0 }

/-- `getCreditoUSD(dolar)`: `Math.round(CONFIG.CREDITO_ARS / (dolar || CONFIG.DOLAR_BASE))`. -/
def getCreditoUSD (cfg : Config) (dolar : Option ℚ) : ℤ :=
  jround (cfg.creditoArs / jsOrNum dolar cfg.dolarBase)

/-- The record returned by `calculateCosts` in `src/unnamed/part_002`. -/
structure CostBreakdown where
  precio : ℤ
  creditoUSD : ℤ
  tu10 : ℚ
  escr : ℤ
  sell : ℤ
  reg : ℤ
  inmob : ℤ
  hip : ℤ
  cert : ℚ
  total : ℚ
  ok : Bool
  dif : ℚ
  deriving Repr

/-- `calculateCosts(precio, {tieneInmob, dolar, negociacionPct})` of
`src/unnamed/part_002` lines 103–129, verbatim in exact rational arithmetic. -/
def calculateCosts (cfg : Config) (precio : ℚ) (tieneInmob : Bool := false)
    (dolar : Option ℚ := none) (negociacionPct : ℚ := 0) : CostBreakdown :=
  let creditoUSD := getCreditoUSD cfg dolar
  let precioFinal := jround (precio * (1 - negociacionPct / 100))
  let tu10 : ℚ := max ((precioFinal : ℚ) - (creditoUSD : ℚ)) ((precioFinal : ℚ) * (1/10))
  let escr := jround ((precioFinal : ℚ) * cfg.escribano)
  let sell := if (precioFinal : ℚ) ≤ cfg.sellosExento then 0
              else jround ((precioFinal : ℚ) * cfg.sellos)
  let reg := jround ((precioFinal : ℚ) * cfg.registrales)
  let inmob := if tieneInmob then jround ((precioFinal : ℚ) * cfg.inmob) else 0
  let hip := jround ((precioFinal : ℚ) * cfg.hipoteca)
  let cert := cfg.certificados
  let total : ℚ := tu10 + (escr : ℚ) + (sell : ℚ) + (reg : ℚ) + (inmob : ℚ) + (hip : ℚ) + cert
  { precio := precioFinal
    creditoUSD := creditoUSD
    tu10 := tu10
    escr := escr
    sell := sell
    reg := reg
    inmob := inmob
    hip := hip
    cert := cert
    total := total
    ok := total ≤ cfg.presupuesto
    dif := cfg.presupuesto - total }

/-- The record returned by `calculateQuitaNecesaria` in `src/unnamed/part_002`. -/
structure QuitaResult where
  precioTarget : ℤ
  quitaPct : ℚ
  quitaUSD : ℤ
  esRealista : Bool
  deriving Repr

/-- `calculateQuitaNecesaria(precio, tieneInmob, dolar)` of
`src/unnamed/part_002` lines 132–151. -/
def calculateQuitaNecesaria (cfg : Config) (precio : ℚ) (tieneInmob : Bool := false)
    (dolar : Option ℚ := none) : QuitaResult :=
  let creditoUSD := getCreditoUSD cfg dolar
  let costosRate := cfg.escribano + cfg.sellos + cfg.registrales +
                    (if tieneInmob then cfg.inmob else 0) + cfg.hipoteca
  let precioTarget1 := (cfg.presupuesto + (creditoUSD : ℚ) - cfg.certificados) / (1 + costosRate)
  let precioTarget2 := (cfg.presupuesto - cfg.certificados) / (1/10 + costosRate)
  let umbral := (creditoUSD : ℚ) / (9/10)
  let precioTarget := if precioTarget1 > umbral then precioTarget1 else precioTarget2
  let quitaPct := if precio > 0 then max 0 ((precio - precioTarget) / precio * 100) else 0
  let quitaUSD := jround (precio - precioTarget)
  { precioTarget := jround precioTarget
    quitaPct := quitaPct
    quitaUSD := quitaUSD
    esRealista := 0 < quitaPct ∧ quitaPct ≤ 20 }

/-! ### String helpers (JS semantics) -/

/-- JS `String.prototype.toLowerCase`, restricted to ASCII plus the accented
letters appearing in this data set (`Á É Í Ó Ú Ñ Ü`). -/
def jsCharToLower (c : Char) : Char :=
  if 'A' ≤ c ∧ c ≤ 'Z' then Char.ofNat (c.toNat + 32)
  else if c = 'Á' then 'á'
  else if c = 'É' then 'é'
  else if c = 'Í' then 'í'
  else if c = 'Ó' then 'ó'
  else if c = 'Ú' then 'ú'
  else if c = 'Ñ' then 'ñ'
  else if c = 'Ü' then 'ü'
  else c

/-- JS `s.toLowerCase()`. -/
def jsToLower (s : String) : String := String.mk (s.toList.map jsCharToLower)

/-- JS `s.trim()` (leading and trailing whitespace removed). -/
def jsTrim (s : String) : String :=
  String.mk (((s.toList.dropWhile Char.isWhitespace).reverse.dropWhile
    Char.isWhitespace).reverse)

/-- JS `s.includes(sub)`. -/
def jsIncludes (s sub : String) : Bool := decide (sub.toList <:+: s.toList)

def digitVal (c : Char) : ℕ := c.toNat - '0'.toNat

def digitsToNat (l : List Char) : ℕ := l.foldl (fun a c => 10 * a + digitVal c) 0

def hexDigitVal (c : Char) : ℕ :=
  if '0' ≤ c ∧ c ≤ '9' then c.toNat - '0'.toNat
  else if 'a' ≤ c ∧ c ≤ 'f' then c.toNat - 'a'.toNat + 10
  else c.toNat - 'A'.toNat + 10

def isHexDigit (c : Char) : Bool :=
  ('0' ≤ c ∧ c ≤ '9') ∨ ('a' ≤ c ∧ c ≤ 'f') ∨ ('A' ≤ c ∧ c ≤ 'F')

def hexToNat (l : List Char) : ℕ := l.foldl (fun a c => 16 * a + hexDigitVal c) 0

/-- JS `parseInt(s)` (radix auto-detected: `0x`/`0X` prefix means hex),
`none` for `NaN`. -/
def jsParseInt (s : String) : Option ℤ :=
  let cs := s.toList.dropWhile Char.isWhitespace
  let (sign, cs) : ℤ × List Char :=
    match cs with
    | '-' :: rest => (-1, rest)
    | '+' :: rest => (1, rest)
    | rest => (1, rest)
  match cs with
  | '0' :: x :: rest =>
    if x = 'x' ∨ x = 'X' then
      -- hex literal: NaN when no hex digit follows the prefix
      (if (rest.takeWhile isHexDigit) = [] then none
       else some (sign * (hexToNat (rest.takeWhile isHexDigit) : ℤ)))
    else
      -- starts with a digit, so the decimal parse always succeeds
      some (sign * (digitsToNat (('0' :: x :: rest).takeWhile Char.isDigit) : ℤ))
  | cs =>
    let ds := cs.takeWhile Char.isDigit
    if ds = [] then none else some (sign * (digitsToNat ds : ℤ))

/-- JS `parseFloat(s)`, `none` for `NaN`.  (Non-finite literals such as
`Infinity`, which `ℚ` cannot represent, are also mapped to `none`; no field of
this data set carries them.) -/
def jsParseFloat (s : String) : Option ℚ :=
  let cs := s.toList.dropWhile Char.isWhitespace
  let (sign, cs) : ℚ × List Char :=
    match cs with
    | '-' :: rest => (-1, rest)
    | '+' :: rest => (1, rest)
    | rest => (1, rest)
  let intDs := cs.takeWhile Char.isDigit
  let rest1 := cs.drop intDs.length
  let (fracDs, rest2) : List Char × List Char :=
    match rest1 with
    | '.' :: r => (r.takeWhile Char.isDigit, r.drop (r.takeWhile Char.isDigit).length)
    | r => ([], r)
  if intDs = [] ∧ fracDs = [] then none
  else
    let mantissa : ℚ := (digitsToNat intDs : ℚ) +
      (digitsToNat fracDs : ℚ) / (10 ^ fracDs.length : ℕ)
    let expPart : ℤ :=
      match rest2 with
      | 'e' :: r | 'E' :: r =>
        let (esign, r') : ℤ × List Char :=
          match r with
          | '-' :: rr => (-1, rr)
          | '+' :: rr => (1, rr)
          | rr => (1, rr)
        let eds := r'.takeWhile Char.isDigit
        if eds = [] then 0 else esign * (digitsToNat eds : ℤ)
      | _ => 0
    some (sign * mantissa * (10 : ℚ) ^ expPart)

/-- `parseFloat(x) || 0` as used for the `precio` and `m2_cub` fields:
a parse failure (or a parsed `0`, which JS treats as falsy) yields `0`. -/
def parseFloatOr0 (s : String) : ℚ :=
  match jsParseFloat s with
  | none => 0
  | some q => q

theorem getCreditoUSD_default : getCreditoUSD defaultConfig none = 86897 := by
  unfold getCreditoUSD jsOrNum defaultConfig
  exact jround_eval (by norm_num) (by norm_num)

example : (calculateCosts defaultConfig 105000).escr = 2541 := by
  unfold calculateCosts
  simp only
  rw [show jround ((105000:ℚ) * (1 - 0/100)) = 105000 from
    jround_eval (by norm_num) (by norm_num)]
  exact jround_eval (by norm_num [defaultConfig]) (by norm_num [defaultConfig])

/-! ### Tier classifier and orchestrator (`calculateProperty`,
`src/unnamed/part_002` lines 176–270) -/

/-- The `enabled` flags of the `CONDITIONS` global (`DEFAULT_CONDITIONS` keys
`activo`, `apto_credito`, `ok_presupuesto`; `loadConditions` always returns all
three keys, and the tier code reads only the latter two). -/
structure Conditions where
  activoEnabled : Bool := true
  aptoCreditoEnabled : Bool := true
  okPresupuestoEnabled : Bool := true
  deriving Repr, DecidableEq

/-- `esVentaDirecta(inmobiliaria)` of `src/unnamed/part_002` lines 176–179. -/
def esVentaDirecta (inmobiliaria : String) : Bool :=
  let text := jsToLower inmobiliaria
  jsIncludes text "direct" || jsIncludes text "dueño" || jsIncludes text "particular"

/-- The tier/score block of `calculateProperty` (`src/unnamed/part_002`
lines 233–270): the base tier chain starting from the initializers
`tier = 4`, `score = 0`, followed by the two sequential condition overrides.
Returns `(tier, score)` where `score` is the tier base score before any
attribute contribution is added. -/
def calcTierScore (link activo aptoCredito : String) (dentroPresupuesto : Bool)
    (cond : Conditions) : ℤ × ℤ :=
  let activoL := jsToLower activo
  let aptoL := jsToLower aptoCredito
  let esActivo := activoL == "si"
  let esAptoCredito := aptoL == "si"
  let noSabemosCredito := aptoL == "" || aptoL == "?"
  let noAptoCredito := aptoL == "no"
  let tieneLink := link != ""
  let base : ℤ × ℤ :=
    if !tieneLink || !esActivo then (5, 0)
    else if esAptoCredito && dentroPresupuesto then (1, 100)
    else if esAptoCredito && !dentroPresupuesto then (2, 80)
    else if noSabemosCredito then (3, 50)
    else if noAptoCredito then (4, 25)
    else (4, 0)
  let afterCredit : ℤ × ℤ :=
    if !cond.aptoCreditoEnabled && 1 ≤ base.1 && base.1 ≤ 4 then
      if dentroPresupuesto then (1, 100) else (2, 80)
    else base
  if !cond.okPresupuestoEnabled && 1 ≤ afterCredit.1 && afterCredit.1 ≤ 4 then
    if esAptoCredito then (1, 100)
    else if noSabemosCredito then (2, 80)
    else (3, 50)
  else afterCredit

/-- The fields of a raw listing row that the embedded portion of
`calculateProperty` reads (all cells are strings; a missing cell is `""`).
The remaining row fields feed only the attribute scores and UI annotations. -/
structure RawRecord where
  precio : String := ""
  inmobiliaria : String := ""
  link : String := ""
  activo : String := ""
  apto_credito : String := ""
  deriving Repr

/-- The outputs of `calculateProperty` that the verified claims are about. -/
structure PropCalc where
  precio : ℚ
  tieneInmob : Bool
  costs : CostBreakdown
  dentroPresupuesto : Bool
  tier : ℤ
  baseScore : ℤ
  deriving Repr

/-- `calculateProperty(p)` of `src/unnamed/part_002` lines 181–270, restricted
to the price/cost/tier pipeline (`CONFIG.NEGOCIACION || 0` is the identity on
the numeric field `cfg.negociacion`). -/
def calculateProperty (cfg : Config) (cond : Conditions) (p : RawRecord) : PropCalc :=
  let precio := parseFloatOr0 p.precio
  let tieneInmob := ! esVentaDirecta p.inmobiliaria
  let costs := calculateCosts cfg precio tieneInmob none cfg.negociacion
  let dentroPresupuesto := costs.ok || decide (precio = 0)
  let ts := calcTierScore p.link p.activo p.apto_credito dentroPresupuesto cond
  { precio := precio
    tieneInmob := tieneInmob
    costs := costs
    dentroPresupuesto := dentroPresupuesto
    tier := ts.1
    baseScore := ts.2 }

example : esVentaDirecta "Venta por DUEÑO directo" = true := by decide
example : esVentaDirecta "" = false := by decide
example : esVentaDirecta "GOLDEN HAUS" = false := by decide

/-! ### C1: tier range, tier-5 characterisation, override invariance -/

/-- Claim C1: For every raw listing record and every condition configuration, the
classifier's final tier lies in `{1,…,5}`; the tier equals `5` iff the record
has no link or its `activo` field (lowercased) is not `"si"`; and the
credit-disable / budget-disable overrides never change a tier-5 result (the
characterisation holds for every condition configuration alike). -/
theorem tier_range_and_tier5_iff (cfg : Config) (cond : Conditions) (p : RawRecord) :
    (1 ≤ (calculateProperty cfg cond p).tier ∧ (calculateProperty cfg cond p).tier ≤ 5) ∧
    ((calculateProperty cfg cond p).tier = 5 ↔
      p.link = "" ∨ jsToLower p.activo ≠ "si") := by
  have key : ∀ (link activo apto : String) (dentro : Bool) (c : Conditions),
      (1 ≤ (calcTierScore link activo apto dentro c).1 ∧
        (calcTierScore link activo apto dentro c).1 ≤ 5) ∧
      ((calcTierScore link activo apto dentro c).1 = 5 ↔
        link = "" ∨ jsToLower activo ≠ "si") := by
    intro link activo apto dentro c
    unfold calcTierScore
    simp only [bne_iff_ne, ne_eq, beq_iff_eq]
    split_ifs <;> simp_all
  simpa [calculateProperty] using key p.link p.activo p.apto_credito
    ((calculateCosts cfg (parseFloatOr0 p.precio) (!esVentaDirecta p.inmobiliaria) none
      cfg.negociacion).ok || decide (parseFloatOr0 p.precio = 0)) cond

/-! ### C7: base score per final tier -/

/-- The spec's base-score table: 100/80/50/25 for tiers 1–4, 0 for tier 5. -/
def tierBaseScore (t : ℤ) : ℤ :=
  if t = 1 then 100 else if t = 2 then 80 else if t = 3 then 50
  else if t = 4 then 25 else 0

/-- Helper for C7: under a recognised credit-eligibility value the tier/score
pair always matches the base-score table, for every condition configuration. -/
theorem calcTierScore_base_recognised (link activo apto : String) (dentro : Bool)
    (cond : Conditions)
    (hrec : jsToLower apto = "si" ∨ jsToLower apto = "no" ∨ jsToLower apto = "" ∨
      jsToLower apto = "?") :
    (calcTierScore link activo apto dentro cond).2 =
      tierBaseScore (calcTierScore link activo apto dentro cond).1 := by
  have mem : calcTierScore link activo apto dentro cond = (1, 100) ∨
      calcTierScore link activo apto dentro cond = (2, 80) ∨
      calcTierScore link activo apto dentro cond = (3, 50) ∨
      calcTierScore link activo apto dentro cond = (4, 25) ∨
      calcTierScore link activo apto dentro cond = (5, 0) := by
    unfold calcTierScore
    simp only [bne_iff_ne, ne_eq, beq_iff_eq]
    split_ifs <;> simp_all
  rcases mem with h | h | h | h | h <;> rw [h] <;> decide

/-- Claim C7, amended: For every record with a link and `activo = "si"` and every
condition configuration, if the lowercased credit-eligibility field is one of
the recognised values `"si"`, `"no"`, `""`, `"?"`, then the base score equals
exactly 100/80/50/25 for final tier 1/2/3/4 (and 0 for tier 5).  The original
claim quantified over *every* value of the credit field; it fails for
unrecognised values such as `"x"`, where the final tier is 4 but the base score
is 0 (see the counterexample). -/
theorem baseScore_matches_tier_recognised (cfg : Config) (cond : Conditions)
    (p : RawRecord) (_hlink : p.link ≠ "") (_hact : jsToLower p.activo = "si")
    (hrec : jsToLower p.apto_credito = "si" ∨ jsToLower p.apto_credito = "no" ∨
      jsToLower p.apto_credito = "" ∨ jsToLower p.apto_credito = "?") :
    (calculateProperty cfg cond p).baseScore =
      tierBaseScore (calculateProperty cfg cond p).tier := by
  unfold calculateProperty
  exact calcTierScore_base_recognised _ _ _ _ _ hrec

/-- A concrete linked active record with a recognised credit value. -/
def recC7 : RawRecord := { link := "https://x", activo := "si", apto_credito := "SI" }

/-- Witness for C7 (amended): a linked active record whose credit field is the
recognised value `"SI"` (lowercases to `"si"`). -/
theorem baseScore_matches_tier_recognised_witness :
    ((calculateProperty defaultConfig {} recC7).baseScore =
      tierBaseScore (calculateProperty defaultConfig {} recC7).tier) :=
  baseScore_matches_tier_recognised defaultConfig {} _ (by decide) (by decide)
    (Or.inl (by decide))

/-- A linked active record with the unrecognised credit value `"x"`. -/
def recC7x : RawRecord := { link := "https://x", activo := "si", apto_credito := "x" }

/-- Counterexample to C7 as stated: with an unrecognised credit-eligibility
value (`"x"`), a linked active record lands in final tier 4 with base score 0,
not 25. -/
theorem baseScore_tier4_zero_counterexample :
    (calculateProperty defaultConfig {} recC7x).tier = 4 ∧
    (calculateProperty defaultConfig {} recC7x).baseScore = 0 ∧
    tierBaseScore 4 = 25 := by
  have h4 : ∀ d : Bool, calcTierScore "https://x" "si" "x" d {} = (4, 0) := by decide
  refine ⟨?_, ?_, by decide⟩ <;>
  · simp only [calculateProperty, recC7x]
    rw [h4]

/-! ### C9: zero-price records are "within budget" and tier 1 -/

/-- Claim C9: A record whose price field normalises to `0` (empty or unparsable
cell) is treated as within budget by the tier classifier for *every*
configuration — even one whose cost total exceeds the budget — and, when it has
a link, `activo = "si"` and `apto_credito = "si"`, it is assigned tier 1 under
every condition configuration. -/
theorem zero_price_within_budget_tier1 (cfg : Config) (cond : Conditions)
    (p : RawRecord) (hprecio : parseFloatOr0 p.precio = 0) (hlink : p.link ≠ "")
    (hact : jsToLower p.activo = "si") (hapto : jsToLower p.apto_credito = "si") :
    (calculateProperty cfg cond p).dentroPresupuesto = true ∧
    (calculateProperty cfg cond p).tier = 1 := by
  have key : ∀ (link activo apto : String) (c : Conditions), link ≠ "" →
      jsToLower activo = "si" → jsToLower apto = "si" →
      (calcTierScore link activo apto true c).1 = 1 := by
    intro link activo apto c h1 h2 h3
    unfold calcTierScore
    simp only [bne_iff_ne, ne_eq, beq_iff_eq]
    split_ifs <;> simp_all
  unfold calculateProperty
  simp only [hprecio]
  constructor
  · simp
  · simpa using key p.link p.activo p.apto_credito cond hlink hact hapto

/-- An empty-price linked active credit-eligible record. -/
def recC9 : RawRecord := { precio := "", link := "https://x", activo := "si", apto_credito := "si" }

/-- Witness for C9: an empty price cell, under a configuration whose budget
(100) is below the fixed certificate fee (300), so the cost total necessarily
exceeds the budget; the record is still "within budget" and tier 1. -/
theorem zero_price_within_budget_tier1_witness :
    (calculateProperty { defaultConfig with presupuesto := 100 } {} recC9).dentroPresupuesto = true ∧
    (calculateProperty { defaultConfig with presupuesto := 100 } {} recC9).tier = 1 :=
  zero_price_within_budget_tier1 _ _ _ (by decide) (by decide) (by decide) (by decide)

/-! ### C10: agency fee charged unless explicitly a direct sale -/

/-- Claim C10: The orchestrator charges the agency fee whenever the lowercased
agency-name field does not contain `"direct"`, `"dueño"` or `"particular"`:
the `tieneInmob` flag is set and the agency line item is computed as
`round(effectivePrice × agencyRate)` rather than hard-coded to 0.  In
particular this covers the empty (unknown) agency field. -/
theorem agency_fee_charged_unless_direct (cfg : Config) (cond : Conditions)
    (p : RawRecord)
    (h1 : jsIncludes (jsToLower p.inmobiliaria) "direct" = false)
    (h2 : jsIncludes (jsToLower p.inmobiliaria) "dueño" = false)
    (h3 : jsIncludes (jsToLower p.inmobiliaria) "particular" = false) :
    (calculateProperty cfg cond p).tieneInmob = true ∧
    (calculateProperty cfg cond p).costs.inmob =
      jround (((calculateProperty cfg cond p).costs.precio : ℚ) * cfg.inmob) := by
  have hdir : esVentaDirecta p.inmobiliaria = false := by
    unfold esVentaDirecta
    simp [h1, h2, h3]
  unfold calculateProperty
  simp only [hdir]
  exact ⟨rfl, by unfold calculateCosts; simp⟩

/-- Witness for C10: a record with an empty agency field still gets the agency
fee included in its cost breakdown. -/
theorem agency_fee_charged_unless_direct_witness :
    (calculateProperty defaultConfig {} { inmobiliaria := "" }).tieneInmob = true ∧
    (calculateProperty defaultConfig {} { inmobiliaria := "" }).costs.inmob =
      jround (((calculateProperty defaultConfig {} { inmobiliaria := "" }).costs.precio : ℚ) *
        defaultConfig.inmob) :=
  agency_fee_charged_unless_direct defaultConfig {} _ (by decide) (by decide) (by decide)

/-! ### Scoring rules (`SCORING_RULES` of `src/docs/js/config.js`,
`scoreAttribute` of `src/unnamed/part_002` lines 21–74) -/

inductive AttrStatus where
  | si | no | missing | disabled | okS | special | unknown
  deriving Repr, DecidableEq

/-- One `{score, status}` result of `scoreAttribute`. -/
structure ScoreResult where
  score : ℚ
  status : AttrStatus
  deriving Repr, DecidableEq

/-- One `{min, score}` entry of a `threshold` rule. -/
structure ThresholdEntry where
  min : ℚ
  score : ℚ
  deriving Repr

/-- One `{max}`/`{min}` entry of a `range` (or `vsRef`) rule; an absent bound
is JS `undefined`. -/
structure RangeEntry where
  max? : Option ℚ
  min? : Option ℚ
  score : ℚ
  deriving Repr

inductive Rule where
  | boolean (bonus penaltyMissing : ℚ)
  | numeric (bonus penaltyMissing : ℚ)
  | disposicion (bonus penaltyMissing : ℚ)
  | threshold (thresholds : List ThresholdEntry) (penaltyMissing : ℚ)
  | range (ranges : List RangeEntry) (penaltyMissing : ℚ)
  | vsRef (ranges : List RangeEntry)
  deriving Repr

/-- The `SCORING_RULES` table of `src/docs/js/config.js` lines 232–301. -/
def SCORING_RULES (key : String) : Option Rule :=
  if key = "terraza" then some (.boolean 10 5)
  else if key = "balcon" then some (.boolean 10 5)
  else if key = "patio" then some (.boolean 10 5)
  else if key = "luminosidad" then some (.boolean 10 5)
  else if key = "cochera" then some (.numeric 10 5)
  else if key = "frente" then some (.disposicion 10 5)
  else if key = "ambientes" then some (.threshold [⟨4, 8⟩, ⟨3, 4⟩] 3)
  else if key = "banos" then some (.threshold [⟨2, 6⟩] 3)
  else if key = "antiguedad" then
    some (.range [⟨some 0, none, 10⟩, ⟨some 15, none, 6⟩, ⟨some 30, none, 3⟩,
      ⟨some 50, none, 0⟩, ⟨none, some 51, -3⟩] 3)
  else if key = "expensas" then
    some (.range [⟨some 0, none, 8⟩, ⟨some 80000, none, 5⟩, ⟨some 150000, none, 2⟩,
      ⟨some 250000, none, 0⟩, ⟨none, some 250001, -4⟩] 2)
  else if key = "m2" then some (.threshold [⟨70, 4⟩, ⟨50, 2⟩, ⟨40, 1⟩] 3)
  else if key = "bajo_mercado" then
    some (.vsRef [⟨some (-15/100), none, 15⟩, ⟨some (-5/100), none, 8⟩,
      ⟨some 0, none, 3⟩, ⟨none, some (15/100), -5⟩])
  else none

/-- The `for (const t of rule.thresholds)` loop of the `threshold` case:
first entry with `num >= t.min` wins; no match falls through to
`{score: 0, status: 'no'}`. -/
def thresholdFirst (ts : List ThresholdEntry) (num : ℤ) (peso : ℚ) : ScoreResult :=
  match ts with
  | [] => ⟨0, .no⟩
  | t :: rest =>
    if t.min ≤ (num : ℚ) then ⟨t.score * peso, if 3 < t.score then .si else .okS⟩
    else thresholdFirst rest num peso

/-- The `for (const r of rule.ranges)` loop of the `range` case: per entry the
`max` bound is checked before the `min` bound; no match falls through to
`{score: 0, status: 'ok'}`. -/
def rangeFirst (rs : List RangeEntry) (num : ℤ) (peso : ℚ) : ScoreResult :=
  match rs with
  | [] => ⟨0, .okS⟩
  | r :: rest =>
    if (match r.max? with | some m => decide ((num : ℚ) ≤ m) | none => false) then
      ⟨r.score * peso, if 0 < r.score then .si else .no⟩
    else if (match r.min? with | some m => decide (m ≤ (num : ℚ)) | none => false) then
      ⟨r.score * peso, .no⟩
    else rangeFirst rest num peso

/-- The `switch (rule.type)` body of `scoreAttribute`
(`src/unnamed/part_002` lines 30–73), one case per rule kind. -/
def applyRule (rule : Rule) (valor : String) (peso : ℚ) : ScoreResult :=
  let v := jsTrim (jsToLower valor)
  let num? := jsParseInt valor
  match rule with
  | .boolean bonus pen =>
    if v = "si" ∨ v = "sí" then ⟨bonus * peso, .si⟩
    else if v = "no" then ⟨0, .no⟩
    else ⟨-pen * peso, .missing⟩
  | .numeric bonus pen =>
    match num? with
    | some n => if 0 < n then ⟨bonus * peso, .si⟩ else ⟨0, .no⟩
    | none => ⟨-pen * peso, .missing⟩
  | .disposicion bonus pen =>
    if v = "frente" then ⟨bonus * peso, .si⟩
    else if v = "contrafrente" ∨ v = "interno" ∨ v = "lateral" then ⟨0, .no⟩
    else ⟨-pen * peso, .missing⟩
  | .threshold ts pen =>
    match num? with
    | some n => if 0 < n then thresholdFirst ts n peso else ⟨-pen * peso, .missing⟩
    | none => ⟨-pen * peso, .missing⟩
  | .range rs pen =>
    match num? with
    | some n => rangeFirst rs n peso
    | none => ⟨-pen * peso, .missing⟩
  | .vsRef _ => ⟨0, .special⟩

/-- `scoreAttribute(key, valor, peso)` of `src/unnamed/part_002` lines 21–74:
a non-positive weight short-circuits to `disabled`, an unconfigured key to
`unknown`, otherwise the rule's switch case runs. -/
def scoreAttribute (key valor : String) (peso : ℚ) : ScoreResult :=
  if peso ≤ 0 then ⟨0, .disabled⟩
  else
    match SCORING_RULES key with
    | none => ⟨0, .unknown⟩
    | some rule => applyRule rule valor peso

theorem thresholdFirst_status_ne_missing (ts : List ThresholdEntry) (num : ℤ) (peso : ℚ) :
    (thresholdFirst ts num peso).status ≠ .missing := by
  induction ts with
  | nil => simp [thresholdFirst]
  | cons t rest ih =>
    unfold thresholdFirst
    split_ifs <;> simp_all

theorem rangeFirst_status_ne_missing (rs : List RangeEntry) (num : ℤ) (peso : ℚ) :
    (rangeFirst rs num peso).status ≠ .missing := by
  induction rs with
  | nil => simp [rangeFirst]
  | cons r rest ih =>
    unfold rangeFirst
    split_ifs <;> simp_all

/-- The `penaltyMissing` field of a rule (`1` for the `vsRef` rule, which has
none). -/
def rulePenalty : Rule → ℚ
  | .boolean _ p => p
  | .numeric _ p => p
  | .disposicion _ p => p
  | .threshold _ p => p
  | .range _ p => p
  | .vsRef _ => 1

theorem SCORING_RULES_penalty_pos (key : String) (rule : Rule)
    (h : SCORING_RULES key = some rule) : 0 < rulePenalty rule := by
  unfold SCORING_RULES at h
  by_cases h1 : key = "terraza"
  · rw [if_pos h1] at h
    injection h with he
    subst he
    norm_num [rulePenalty]
  · rw [if_neg h1] at h
    by_cases h2 : key = "balcon"
    · rw [if_pos h2] at h
      injection h with he
      subst he
      norm_num [rulePenalty]
    · rw [if_neg h2] at h
      by_cases h3 : key = "patio"
      · rw [if_pos h3] at h
        injection h with he
        subst he
        norm_num [rulePenalty]
      · rw [if_neg h3] at h
        by_cases h4 : key = "luminosidad"
        · rw [if_pos h4] at h
          injection h with he
          subst he
          norm_num [rulePenalty]
        · rw [if_neg h4] at h
          by_cases h5 : key = "cochera"
          · rw [if_pos h5] at h
            injection h with he
            subst he
            norm_num [rulePenalty]
          · rw [if_neg h5] at h
            by_cases h6 : key = "frente"
            · rw [if_pos h6] at h
              injection h with he
              subst he
              norm_num [rulePenalty]
            · rw [if_neg h6] at h
              by_cases h7 : key = "ambientes"
              · rw [if_pos h7] at h
                injection h with he
                subst he
                norm_num [rulePenalty]
              · rw [if_neg h7] at h
                by_cases h8 : key = "banos"
                · rw [if_pos h8] at h
                  injection h with he
                  subst he
                  norm_num [rulePenalty]
                · rw [if_neg h8] at h
                  by_cases h9 : key = "antiguedad"
                  · rw [if_pos h9] at h
                    injection h with he
                    subst he
                    norm_num [rulePenalty]
                  · rw [if_neg h9] at h
                    by_cases h10 : key = "expensas"
                    · rw [if_pos h10] at h
                      injection h with he
                      subst he
                      norm_num [rulePenalty]
                    · rw [if_neg h10] at h
                      by_cases h11 : key = "m2"
                      · rw [if_pos h11] at h
                        injection h with he
                        subst he
                        norm_num [rulePenalty]
                      · rw [if_neg h11] at h
                        by_cases h12 : key = "bajo_mercado"
                        · rw [if_pos h12] at h
                          injection h with he
                          subst he
                          norm_num [rulePenalty]
                        · rw [if_neg h12] at h
                          exact Option.noConfusion h

/-! ### C2: an unknown attribute value always contributes negatively -/

/-- Claim C2: For every configured attribute with effective weight `> 0`, if the
attribute's value is absent or unparsable so that its status is unknown
(status `'missing'` in the code), then its score contribution is strictly
negative. -/
theorem missing_contribution_neg (key valor : String) (peso : ℚ) (hw : 0 < peso)
    (hm : (scoreAttribute key valor peso).status = .missing) :
    (scoreAttribute key valor peso).score < 0 := by
  have hne : ¬ peso ≤ 0 := not_le.mpr hw
  rcases hrule : SCORING_RULES key with _ | rule
  · simp [scoreAttribute, hne, hrule] at hm
  · have hpen := SCORING_RULES_penalty_pos key rule hrule
    have hs : scoreAttribute key valor peso = applyRule rule valor peso := by
      simp [scoreAttribute, hne, hrule]
    rw [hs] at hm ⊢
    cases rule with
    | boolean bonus pen =>
      simp only [rulePenalty] at hpen
      simp only [applyRule] at hm ⊢
      split_ifs at hm ⊢
      show -pen * peso < 0
      nlinarith
    | numeric bonus pen =>
      simp only [rulePenalty] at hpen
      simp only [applyRule] at hm ⊢
      rcases hn : jsParseInt valor with _ | n <;> simp only [hn] at hm ⊢
      · show -pen * peso < 0
        nlinarith
      · split_ifs at hm ⊢
    | disposicion bonus pen =>
      simp only [rulePenalty] at hpen
      simp only [applyRule] at hm ⊢
      split_ifs at hm ⊢
      show -pen * peso < 0
      nlinarith
    | threshold ts pen =>
      simp only [rulePenalty] at hpen
      simp only [applyRule] at hm ⊢
      rcases hn : jsParseInt valor with _ | n <;> simp only [hn] at hm ⊢
      · show -pen * peso < 0
        nlinarith
      · split_ifs at hm ⊢
        · exact absurd hm (thresholdFirst_status_ne_missing ts n peso)
        · show -pen * peso < 0
          nlinarith
    | range rs pen =>
      simp only [rulePenalty] at hpen
      simp only [applyRule] at hm ⊢
      rcases hn : jsParseInt valor with _ | n <;> simp only [hn] at hm ⊢
      · show -pen * peso < 0
        nlinarith
      · exact absurd hm (rangeFirst_status_ne_missing rs n peso)
    | vsRef rs =>
      simp only [applyRule] at hm
      exact absurd hm (by decide)

/-- Witness for C2: `terraza` with an empty cell at weight 7 contributes
`-5 × 7 = -35`. -/
theorem missing_contribution_neg_witness :
    (scoreAttribute "terraza" "" 7).status = .missing ∧
    (scoreAttribute "terraza" "" 7).score < 0 :=
  ⟨by decide, missing_contribution_neg "terraza" "" 7 (by norm_num) (by decide)⟩

/-! ### C8: weight handling (`loadWeights` of `src/docs/js/config.js`
lines 358–375, `getWeight` of `src/unnamed/part_002` lines 272–273) -/

/-- One `{weight, enabled}` entry of the `WEIGHTS` table. -/
structure WeightEntry where
  weight : ℚ
  enabled : Bool
  deriving Repr, DecidableEq

/-- `DEFAULT_WEIGHTS` of `src/docs/js/config.js` lines 153–166 (weights only;
labels and descriptions are UI text). -/
def DEFAULT_WEIGHTS (key : String) : Option WeightEntry :=
  if key = "bajo_mercado" then some ⟨7, true⟩
  else if key = "m2" then some ⟨5, true⟩
  else if key = "ambientes" then some ⟨3, true⟩
  else if key = "banos" then some ⟨2, true⟩
  else if key = "antiguedad" then some ⟨3, true⟩
  else if key = "expensas" then some ⟨2, true⟩
  else if key = "terraza" then some ⟨5, true⟩
  else if key = "balcon" then some ⟨3, true⟩
  else if key = "patio" then some ⟨5, true⟩
  else if key = "cochera" then some ⟨4, true⟩
  else if key = "luminosidad" then some ⟨4, true⟩
  else if key = "frente" then some ⟨3, true⟩
  else none

/-- A value stored under one key of the persisted `casita_weights` JSON:
a bare number (old format), an object (new format, either field possibly
absent), or a value of any other JSON type (ignored by `loadWeights`). -/
inductive SavedWeight where
  | num (w : ℚ)
  | obj (weight? : Option ℚ) (enabled? : Option Bool)
  | otherType
  deriving Repr

/-- `loadWeights()` of `src/docs/js/config.js` lines 358–375: start from a
clone of the defaults, then for each stored key that exists in the defaults
overwrite `weight` (old numeric format) or merge `weight`/`enabled` with
`??`-defaults (object format).  No clamping is performed. -/
def loadWeights (saved : Option (String → Option SavedWeight)) (key : String) :
    Option WeightEntry :=
  match DEFAULT_WEIGHTS key with
  | none => none
  | some d =>
    match saved with
    | none => some d
    | some s =>
      match s key with
      | none => some d
      | some (.num w) => some { d with weight := w }
      | some (.obj w? e?) => some { weight := w?.getD d.weight, enabled := e?.getD true }
      | some .otherType => some d

/-- `getWeight(key)` of `src/unnamed/part_002` lines 272–273:
`WEIGHTS[key]?.enabled ? WEIGHTS[key].weight : 0`. -/
def getWeight (W : String → Option WeightEntry) (key : String) : ℚ :=
  match W key with
  | some e => if e.enabled then e.weight else 0
  | none => 0

/-- A stored weight table carrying the out-of-range value 11 for `terraza`
(old numeric format). -/
def savedW11 : String → Option SavedWeight :=
  fun k => if k = "terraza" then some (.num 11) else none

/-- Counterexample to C8 as stated: `loadWeights` performs no clamping — a
stored weight of 11 becomes the effective weight 11 > 10 and multiplies the
missing-data penalty in the scorer (`-5 × 11 = -55`). -/
theorem weight_clamp_counterexample :
    getWeight (loadWeights (some savedW11)) "terraza" = 11 ∧
    ¬ ((11 : ℚ) ≤ 10) ∧
    (scoreAttribute "terraza" "" 11).status = .missing ∧
    (scoreAttribute "terraza" "" 11).score = -55 := by
  refine ⟨rfl, by norm_num, by decide, ?_⟩
  have h : (scoreAttribute "terraza" "" 11).score = -5 * 11 := rfl
  rw [h]
  norm_num

/-- Claim C8, amended: Caller-supplied weights are *not* clamped to `[0,10]`:
`loadWeights` stores them verbatim (see the counterexample).  The only
defensive check sits in the scorer: a non-positive effective weight short-
circuits to a `disabled` result with contribution 0, so the weight that
actually multiplies a bonus or penalty is always strictly positive — but it
may exceed 10. -/
theorem nonpositive_weight_disabled (key valor : String) (peso : ℚ)
    (h : peso ≤ 0) : scoreAttribute key valor peso = ⟨0, .disabled⟩ := by
  unfold scoreAttribute
  rw [if_pos h]

/-- Witness for C8 (amended): weight 0 disables the `terraza` attribute even
on a confirmed-yes value. -/
theorem nonpositive_weight_disabled_witness :
    scoreAttribute "terraza" "si" 0 = ⟨0, .disabled⟩ :=
  nonpositive_weight_disabled "terraza" "si" 0 (by norm_num)

/-! ### Projection lemmas for `calculateCosts` -/

theorem cc_precio (cfg : Config) (precio : ℚ) (flag : Bool) (dolar : Option ℚ) (neg : ℚ) :
    (calculateCosts cfg precio flag dolar neg).precio =
      jround (precio * (1 - neg / 100)) := rfl

theorem cc_creditoUSD (cfg : Config) (precio : ℚ) (flag : Bool) (dolar : Option ℚ) (neg : ℚ) :
    (calculateCosts cfg precio flag dolar neg).creditoUSD = getCreditoUSD cfg dolar := rfl

theorem cc_tu10 (cfg : Config) (precio : ℚ) (flag : Bool) (dolar : Option ℚ) (neg : ℚ) :
    (calculateCosts cfg precio flag dolar neg).tu10 =
      max (((calculateCosts cfg precio flag dolar neg).precio : ℚ) -
           ((calculateCosts cfg precio flag dolar neg).creditoUSD : ℚ))
          (((calculateCosts cfg precio flag dolar neg).precio : ℚ) * (1/10)) := rfl

theorem cc_escr (cfg : Config) (precio : ℚ) (flag : Bool) (dolar : Option ℚ) (neg : ℚ) :
    (calculateCosts cfg precio flag dolar neg).escr =
      jround (((calculateCosts cfg precio flag dolar neg).precio : ℚ) * cfg.escribano) := rfl

theorem cc_sell (cfg : Config) (precio : ℚ) (flag : Bool) (dolar : Option ℚ) (neg : ℚ) :
    (calculateCosts cfg precio flag dolar neg).sell =
      (if ((calculateCosts cfg precio flag dolar neg).precio : ℚ) ≤ cfg.sellosExento then 0
       else jround (((calculateCosts cfg precio flag dolar neg).precio : ℚ) * cfg.sellos)) := rfl

theorem cc_reg (cfg : Config) (precio : ℚ) (flag : Bool) (dolar : Option ℚ) (neg : ℚ) :
    (calculateCosts cfg precio flag dolar neg).reg =
      jround (((calculateCosts cfg precio flag dolar neg).precio : ℚ) * cfg.registrales) := rfl

theorem cc_inmob (cfg : Config) (precio : ℚ) (flag : Bool) (dolar : Option ℚ) (neg : ℚ) :
    (calculateCosts cfg precio flag dolar neg).inmob =
      (if flag then jround (((calculateCosts cfg precio flag dolar neg).precio : ℚ) * cfg.inmob)
       else 0) := rfl

theorem cc_hip (cfg : Config) (precio : ℚ) (flag : Bool) (dolar : Option ℚ) (neg : ℚ) :
    (calculateCosts cfg precio flag dolar neg).hip =
      jround (((calculateCosts cfg precio flag dolar neg).precio : ℚ) * cfg.hipoteca) := rfl

theorem cc_cert (cfg : Config) (precio : ℚ) (flag : Bool) (dolar : Option ℚ) (neg : ℚ) :
    (calculateCosts cfg precio flag dolar neg).cert = cfg.certificados := rfl

theorem cc_total (cfg : Config) (precio : ℚ) (flag : Bool) (dolar : Option ℚ) (neg : ℚ) :
    (calculateCosts cfg precio flag dolar neg).total =
      (calculateCosts cfg precio flag dolar neg).tu10 +
      ((calculateCosts cfg precio flag dolar neg).escr : ℚ) +
      ((calculateCosts cfg precio flag dolar neg).sell : ℚ) +
      ((calculateCosts cfg precio flag dolar neg).reg : ℚ) +
      ((calculateCosts cfg precio flag dolar neg).inmob : ℚ) +
      ((calculateCosts cfg precio flag dolar neg).hip : ℚ) +
      (calculateCosts cfg precio flag dolar neg).cert := rfl

theorem cc_ok (cfg : Config) (precio : ℚ) (flag : Bool) (dolar : Option ℚ) (neg : ℚ) :
    (calculateCosts cfg precio flag dolar neg).ok =
      decide ((calculateCosts cfg precio flag dolar neg).total ≤ cfg.presupuesto) := rfl

theorem cc_dif (cfg : Config) (precio : ℚ) (flag : Bool) (dolar : Option ℚ) (neg : ℚ) :
    (calculateCosts cfg precio flag dolar neg).dif =
      cfg.presupuesto - (calculateCosts cfg precio flag dolar neg).total := rfl

/-! ### C3: which cost steps are integers -/

/-- Counterexample to C3 as stated: at price 94005 with the base FX rate 1450
and no negotiation, the down payment is `max(94005 − 86897, 9400.5) = 9400.5`,
not an integer — the 10%-minimum branch of `tu10` is *not* rounded — and hence
the cost total `13291.5` is not an integer either. -/
theorem downPayment_not_integer_counterexample :
    (calculateCosts defaultConfig 94005 false none 0).tu10 = 18801/2 ∧
    (calculateCosts defaultConfig 94005 false none 0).total = 26583/2 ∧
    ¬ ∃ n : ℤ, ((18801 : ℚ)/2 = (n : ℚ)) := by
  have hpf : (calculateCosts defaultConfig 94005 false none 0).precio = 94005 := by
    rw [cc_precio]
    exact jround_eval (by norm_num) (by norm_num)
  have hc : (calculateCosts defaultConfig 94005 false none 0).creditoUSD = 86897 := by
    rw [cc_creditoUSD]
    exact getCreditoUSD_default
  have htu : (calculateCosts defaultConfig 94005 false none 0).tu10 = 18801/2 := by
    rw [cc_tu10, hpf, hc]
    norm_num
  refine ⟨htu, ?_, ?_⟩
  · have hescr : (calculateCosts defaultConfig 94005 false none 0).escr = 2275 := by
      rw [cc_escr, hpf]
      exact jround_eval (by norm_num [defaultConfig]) (by norm_num [defaultConfig])
    have hsell : (calculateCosts defaultConfig 94005 false none 0).sell = 0 := by
      rw [cc_sell, hpf, if_pos (by norm_num [defaultConfig])]
    have hreg : (calculateCosts defaultConfig 94005 false none 0).reg = 376 := by
      rw [cc_reg, hpf]
      exact jround_eval (by norm_num [defaultConfig]) (by norm_num [defaultConfig])
    have hinm : (calculateCosts defaultConfig 94005 false none 0).inmob = 0 := by
      rw [cc_inmob, if_neg (by simp)]
    have hhip : (calculateCosts defaultConfig 94005 false none 0).hip = 940 := by
      rw [cc_hip, hpf]
      exact jround_eval (by norm_num [defaultConfig]) (by norm_num [defaultConfig])
    rw [cc_total, htu, hescr, hsell, hreg, hinm, hhip, cc_cert]
    norm_num [defaultConfig]
  · rintro ⟨n, hn⟩
    have h2 : (2 * n : ℚ) = 18801 := by linarith
    have h3 : (2 * n : ℤ) = 18801 := by exact_mod_cast h2
    omega

/-- Claim C3, amended: In `calculateCosts` every line item except the down
payment is rounded to an integer; the down payment
`max(effectivePrice − creditUSD, effectivePrice × 0.10)` is *not* rounded.
It is an integer whenever the credit-gap branch is at least the 10% minimum
(`effectivePrice − creditUSD ≥ effectivePrice × 0.10`), and in that case
`totalNeeded` is an integer as well; when the 10% branch wins the down payment
is `effectivePrice/10`, which may be fractional (see the counterexample). -/
theorem downPayment_total_integer_credit_branch (precio : ℚ) (flag : Bool)
    (dolar : Option ℚ) (neg : ℚ)
    (h : ((calculateCosts defaultConfig precio flag dolar neg).precio : ℚ) -
         ((calculateCosts defaultConfig precio flag dolar neg).creditoUSD : ℚ) ≥
         ((calculateCosts defaultConfig precio flag dolar neg).precio : ℚ) * (1/10)) :
    (calculateCosts defaultConfig precio flag dolar neg).tu10 =
      (((calculateCosts defaultConfig precio flag dolar neg).precio -
        (calculateCosts defaultConfig precio flag dolar neg).creditoUSD : ℤ) : ℚ) ∧
    ∃ n : ℤ, (calculateCosts defaultConfig precio flag dolar neg).total = (n : ℚ) := by
  have htu : (calculateCosts defaultConfig precio flag dolar neg).tu10 =
      (((calculateCosts defaultConfig precio flag dolar neg).precio -
        (calculateCosts defaultConfig precio flag dolar neg).creditoUSD : ℤ) : ℚ) := by
    rw [cc_tu10, max_eq_left h]
    push_cast
    ring
  refine ⟨htu, ⟨((calculateCosts defaultConfig precio flag dolar neg).precio -
      (calculateCosts defaultConfig precio flag dolar neg).creditoUSD) +
      (calculateCosts defaultConfig precio flag dolar neg).escr +
      (calculateCosts defaultConfig precio flag dolar neg).sell +
      (calculateCosts defaultConfig precio flag dolar neg).reg +
      (calculateCosts defaultConfig precio flag dolar neg).inmob +
      (calculateCosts defaultConfig precio flag dolar neg).hip + 300, ?_⟩⟩
  rw [cc_total, htu]
  have hcert : (calculateCosts defaultConfig precio flag dolar neg).cert = 300 := by
    rw [cc_cert]
    norm_num [defaultConfig]
  rw [hcert]
  push_cast
  ring

/-- Witness for C3 (amended): price 150000 at the base FX rate — the credit gap
`150000 − 86897 = 63103` exceeds the 10% minimum `15000`, so the down payment
and the total are integers. -/
theorem downPayment_total_integer_credit_branch_witness :
    (calculateCosts defaultConfig 150000 false none 0).tu10 =
      (((calculateCosts defaultConfig 150000 false none 0).precio -
        (calculateCosts defaultConfig 150000 false none 0).creditoUSD : ℤ) : ℚ) ∧
    ∃ n : ℤ, (calculateCosts defaultConfig 150000 false none 0).total = (n : ℚ) :=
  downPayment_total_integer_credit_branch 150000 false none 0 (by
    rw [cc_precio, cc_creditoUSD]
    rw [show jround ((150000:ℚ) * (1 - 0/100)) = 150000 from
      jround_eval (by norm_num) (by norm_num), getCreditoUSD_default]
    norm_num)

/-! ### C4: `totalNeeded` is non-increasing in the negotiation percent -/

/-- The cost total as a function of the (already rounded) effective price `pf`
and credit `c` — the body of `calculateCosts` after its two rounding steps. -/
def totalAt (cfg : Config) (flag : Bool) (c pf : ℤ) : ℚ :=
  max ((pf : ℚ) - (c : ℚ)) ((pf : ℚ) * (1/10)) +
  ((jround ((pf : ℚ) * cfg.escribano) : ℤ) : ℚ) +
  (((if (pf : ℚ) ≤ cfg.sellosExento then (0 : ℤ)
     else jround ((pf : ℚ) * cfg.sellos)) : ℤ) : ℚ) +
  ((jround ((pf : ℚ) * cfg.registrales) : ℤ) : ℚ) +
  (((if flag then jround ((pf : ℚ) * cfg.inmob) else (0 : ℤ)) : ℤ) : ℚ) +
  ((jround ((pf : ℚ) * cfg.hipoteca) : ℤ) : ℚ) +
  cfg.certificados

theorem cc_total_totalAt (cfg : Config) (precio : ℚ) (flag : Bool)
    (dolar : Option ℚ) (neg : ℚ) :
    (calculateCosts cfg precio flag dolar neg).total =
      totalAt cfg flag (getCreditoUSD cfg dolar) (jround (precio * (1 - neg / 100))) := rfl

/-- Monotonicity of the cost total in the effective price, for non-negative
fee rates and a non-negative effective price. -/
theorem totalAt_mono (cfg : Config) (flag : Bool) (c : ℤ) {pf1 pf2 : ℤ}
    (hle : pf2 ≤ pf1) (h0 : 0 ≤ pf2)
    (hesc : 0 ≤ cfg.escribano) (hsel : 0 ≤ cfg.sellos) (hreg : 0 ≤ cfg.registrales)
    (hinm : 0 ≤ cfg.inmob) (hhip : 0 ≤ cfg.hipoteca) :
    totalAt cfg flag c pf2 ≤ totalAt cfg flag c pf1 := by
  have hq : (pf2 : ℚ) ≤ (pf1 : ℚ) := by exact_mod_cast hle
  have h0q : (0 : ℚ) ≤ (pf2 : ℚ) := by exact_mod_cast h0
  have h0q1 : (0 : ℚ) ≤ (pf1 : ℚ) := le_trans h0q hq
  have t1 : max ((pf2 : ℚ) - c) ((pf2 : ℚ) * (1/10)) ≤
      max ((pf1 : ℚ) - c) ((pf1 : ℚ) * (1/10)) :=
    max_le_max (by linarith) (by linarith)
  have t2 : ((jround ((pf2 : ℚ) * cfg.escribano) : ℤ) : ℚ) ≤
      ((jround ((pf1 : ℚ) * cfg.escribano) : ℤ) : ℚ) := by
    exact_mod_cast jround_mono (by nlinarith)
  have t3 : (((if (pf2 : ℚ) ≤ cfg.sellosExento then (0 : ℤ)
      else jround ((pf2 : ℚ) * cfg.sellos)) : ℤ) : ℚ) ≤
      (((if (pf1 : ℚ) ≤ cfg.sellosExento then (0 : ℤ)
      else jround ((pf1 : ℚ) * cfg.sellos)) : ℤ) : ℚ) := by
    by_cases ha : (pf1 : ℚ) ≤ cfg.sellosExento
    · rw [if_pos ha, if_pos (le_trans hq ha)]
    · by_cases hb : (pf2 : ℚ) ≤ cfg.sellosExento
      · rw [if_pos hb, if_neg ha]
        exact_mod_cast jround_nonneg (by nlinarith)
      · rw [if_neg ha, if_neg hb]
        exact_mod_cast jround_mono (by nlinarith)
  have t4 : ((jround ((pf2 : ℚ) * cfg.registrales) : ℤ) : ℚ) ≤
      ((jround ((pf1 : ℚ) * cfg.registrales) : ℤ) : ℚ) := by
    exact_mod_cast jround_mono (by nlinarith)
  have t5 : (((if flag then jround ((pf2 : ℚ) * cfg.inmob) else (0 : ℤ)) : ℤ) : ℚ) ≤
      (((if flag then jround ((pf1 : ℚ) * cfg.inmob) else (0 : ℤ)) : ℤ) : ℚ) := by
    cases flag with
    | false => simp
    | true =>
      simp only [if_true]
      exact_mod_cast jround_mono (by nlinarith)
  have t6 : ((jround ((pf2 : ℚ) * cfg.hipoteca) : ℤ) : ℚ) ≤
      ((jround ((pf1 : ℚ) * cfg.hipoteca) : ℤ) : ℚ) := by
    exact_mod_cast jround_mono (by nlinarith)
  unfold totalAt
  linarith

/-- Claim C4: For every price ≥ 0, fee-schedule configuration with non-negative
rates, agency flag and fixed FX rate, `totalNeeded` is non-increasing in the
negotiation percent on `[0,100]`: if `n1 ≤ n2` then the total at `n2` is at
most the total at `n1`. -/
theorem totalNeeded_antitone_negotiation (cfg : Config) (precio : ℚ) (flag : Bool)
    (dolar : Option ℚ) (n1 n2 : ℚ)
    (hprecio : 0 ≤ precio)
    (hesc : 0 ≤ cfg.escribano) (hsel : 0 ≤ cfg.sellos) (hreg : 0 ≤ cfg.registrales)
    (hinm : 0 ≤ cfg.inmob) (hhip : 0 ≤ cfg.hipoteca)
    (_h1 : 0 ≤ n1) (h12 : n1 ≤ n2) (h2 : n2 ≤ 100) :
    (calculateCosts cfg precio flag dolar n2).total ≤
      (calculateCosts cfg precio flag dolar n1).total := by
  rw [cc_total_totalAt, cc_total_totalAt]
  apply totalAt_mono cfg flag (getCreditoUSD cfg dolar) _ _ hesc hsel hreg hinm hhip
  · apply jround_mono
    have hf : 1 - n2/100 ≤ 1 - n1/100 := by linarith
    nlinarith
  · apply jround_nonneg
    have hf : (0:ℚ) ≤ 1 - n2/100 := by linarith
    nlinarith

/-- Witness for C4: raising the negotiation from 5% to 10% on a 150000 listing
does not increase the total. -/
theorem totalNeeded_antitone_negotiation_witness :
    (calculateCosts defaultConfig 150000 true none 10).total ≤
      (calculateCosts defaultConfig 150000 true none 5).total :=
  totalNeeded_antitone_negotiation defaultConfig 150000 true none 5 10
    (by norm_num) (by norm_num [defaultConfig]) (by norm_num [defaultConfig])
    (by norm_num [defaultConfig]) (by norm_num [defaultConfig])
    (by norm_num [defaultConfig]) (by norm_num) (by norm_num) (by norm_num)

/-! ### C6: stamp-tax exemption boundary -/

/-- Counterexample to C6 as stated: the claim quantifies over *every* positive
stamp rate, but with a rate of `10⁻⁶` an effective price of 140001 — above the
threshold — still rounds to a stamp of 0, so "stamp = 0 iff price ≤ threshold"
fails. -/
theorem stamp_tiny_rate_counterexample :
    (0 : ℚ) < 1/1000000 ∧
    (calculateCosts { defaultConfig with sellos := 1/1000000 } 140001 false none 0).precio
      = 140001 ∧
    (calculateCosts { defaultConfig with sellos := 1/1000000 } 140001 false none 0).sell
      = 0 := by
  have hpf : (calculateCosts { defaultConfig with sellos := 1/1000000 } 140001
      false none 0).precio = 140001 := by
    rw [cc_precio]
    exact jround_eval (by norm_num) (by norm_num)
  refine ⟨by norm_num, hpf, ?_⟩
  rw [cc_sell, hpf, if_neg (by norm_num [defaultConfig])]
  exact jround_eval (by norm_num [defaultConfig]) (by norm_num [defaultConfig])

/-- Claim C6, amended: For every configuration with exemption threshold 140000
and stamp rate large enough that the first taxable price rounds to at least one
unit (`140001 × rate ≥ 1/2`, true of the configured rate 0.0175), the stamp
line item is 0 iff the effective price is at most the threshold, and every
effective price above the threshold yields a strictly positive stamp.  The
boundary is inclusive: 140000 is exempt, 140001 is taxed. -/
theorem stamp_zero_iff (cfg : Config) (precio : ℚ) (flag : Bool)
    (dolar : Option ℚ) (neg : ℚ)
    (hT : cfg.sellosExento = 140000)
    (hrate : 1/2 ≤ 140001 * cfg.sellos) :
    ((calculateCosts cfg precio flag dolar neg).sell = 0 ↔
      ((calculateCosts cfg precio flag dolar neg).precio : ℚ) ≤ 140000) ∧
    (140000 < ((calculateCosts cfg precio flag dolar neg).precio : ℚ) →
      0 < (calculateCosts cfg precio flag dolar neg).sell) := by
  have hsel : 0 < cfg.sellos := by nlinarith
  have hpos : 140000 < ((calculateCosts cfg precio flag dolar neg).precio : ℚ) →
      0 < (calculateCosts cfg precio flag dolar neg).sell := by
    intro hgt
    rw [cc_sell, hT, if_neg (not_le.mpr hgt)]
    have hint : (140001 : ℤ) ≤ (calculateCosts cfg precio flag dolar neg).precio := by
      have : (140000 : ℤ) < (calculateCosts cfg precio flag dolar neg).precio := by
        exact_mod_cast hgt
      omega
    have hstep : (140001 : ℚ) * cfg.sellos ≤
        ((calculateCosts cfg precio flag dolar neg).precio : ℚ) * cfg.sellos := by
      have : (140001 : ℚ) ≤ ((calculateCosts cfg precio flag dolar neg).precio : ℚ) := by
        exact_mod_cast hint
      nlinarith
    have h1 : (1 : ℤ) ≤ jround (((calculateCosts cfg precio flag dolar neg).precio : ℚ)
        * cfg.sellos) := by
      unfold jround
      rw [Int.le_floor]
      push_cast
      linarith
    omega
  constructor
  · constructor
    · intro hzero
      by_contra hgt
      push_neg at hgt
      have := hpos hgt
      omega
    · intro hle
      rw [cc_sell, hT, if_pos hle]
  · exact hpos

/-- Witness for C6 (amended): under the default configuration
(rate 0.0175, threshold 140000) the boundary behaves as claimed —
price 140000 is exempt and price 140001 is taxed. -/
theorem stamp_zero_iff_witness :
    (calculateCosts defaultConfig 140000 false none 0).sell = 0 ∧
    0 < (calculateCosts defaultConfig 140001 false none 0).sell := by
  have h0 := stamp_zero_iff defaultConfig 140000 false none 0
    (by norm_num [defaultConfig]) (by norm_num [defaultConfig])
  have h1 := stamp_zero_iff defaultConfig 140001 false none 0
    (by norm_num [defaultConfig]) (by norm_num [defaultConfig])
  have hp0 : (calculateCosts defaultConfig 140000 false none 0).precio = 140000 := by
    rw [cc_precio]
    exact jround_eval (by norm_num) (by norm_num)
  have hp1 : (calculateCosts defaultConfig 140001 false none 0).precio = 140001 := by
    rw [cc_precio]
    exact jround_eval (by norm_num) (by norm_num)
  constructor
  · exact h0.1.mpr (by rw [hp0]; norm_num)
  · exact h1.2 (by rw [hp1]; norm_num)

/-! ### C5: round-tripping the discount solver through the cost calculator -/

theorem jround_intCast (n : ℤ) : jround ((n : ℤ) : ℚ) = n :=
  jround_eval (by linarith) (by linarith)

/-- The solver's target price as a function of the credit value — the
`precioTarget` expression of `calculateQuitaNecesaria` before rounding. -/
def targetQ (cfg : Config) (flag : Bool) (c : ℤ) : ℚ :=
  let costosRate := cfg.escribano + cfg.sellos + cfg.registrales +
                    (if flag then cfg.inmob else 0) + cfg.hipoteca
  let precioTarget1 := (cfg.presupuesto + (c : ℚ) - cfg.certificados) / (1 + costosRate)
  let precioTarget2 := (cfg.presupuesto - cfg.certificados) / (1/10 + costosRate)
  if precioTarget1 > (c : ℚ) / (9/10) then precioTarget1 else precioTarget2

theorem cq_precioTarget (cfg : Config) (precio : ℚ) (flag : Bool) (dolar : Option ℚ) :
    (calculateQuitaNecesaria cfg precio flag dolar).precioTarget =
      jround (targetQ cfg flag (getCreditoUSD cfg dolar)) := rfl

/-- Round-trip budget bound, no agency fee: for every non-negative credit
value, evaluating the cost total at the rounded solver target stays within
2 units of the 25000 budget. -/
theorem roundtrip_total_le_false (c : ℤ) (hc0 : 0 ≤ c) :
    totalAt defaultConfig false c (jround (targetQ defaultConfig false c)) ≤ 25002 := by
  have hcq : (0 : ℚ) ≤ (c : ℚ) := by exact_mod_cast hc0
  have htq : targetQ defaultConfig false c =
      (if (c:ℚ) / (9/10) < (25000 + (c:ℚ) - 300) / (10557/10000)
       then (25000 + (c:ℚ) - 300) / (10557/10000)
       else 247000000 / 1557) := by
    unfold targetQ
    norm_num [defaultConfig]
  rw [htq]
  by_cases hbr : (c:ℚ) / (9/10) < (25000 + (c:ℚ) - 300) / (10557/10000)
  · -- credit-gap branch: target₁ was selected
    rw [if_pos hbr]
    set t1 : ℚ := (25000 + (c:ℚ) - 300) / (10557/10000) with ht1
    have hident : t1 * (10557/10000) = 24700 + (c:ℚ) := by
      rw [ht1, div_mul_cancel₀ _ (by norm_num : (10557/10000 : ℚ) ≠ 0)]
      ring
    have hA : (c:ℚ) < t1 * (9/10) := by
      have h := (div_lt_iff₀ (by norm_num : (0:ℚ) < 9/10)).mp hbr
      linarith
    have ht1pos : 0 < t1 := by
      rw [ht1]
      have h : (0:ℚ) < 25000 + (c:ℚ) - 300 := by linarith
      positivity
    have ht1lt : t1 < 247000000/1557 := by linarith
    set pf := jround t1 with hpfdef
    have hpfU : (pf : ℚ) ≤ t1 + 1/2 := jround_le t1
    have hpf0 : (0 : ℚ) ≤ (pf : ℚ) := by
      have h0 : 0 ≤ pf := jround_nonneg (le_of_lt ht1pos)
      exact_mod_cast h0
    have hpf158 : (pf : ℚ) ≤ 158638 := by
      have h1 : (pf : ℚ) < 158639 := by linarith
      have h2 : pf < 158639 := by exact_mod_cast h1
      have h3 : pf ≤ 158638 := by omega
      exact_mod_cast h3
    have htot : totalAt defaultConfig false c pf =
        max ((pf:ℚ) - (c:ℚ)) ((pf:ℚ) * (1/10)) +
        ((jround ((pf:ℚ) * (242/10000)) : ℤ) : ℚ) +
        (((if (pf:ℚ) ≤ 140000 then (0:ℤ) else jround ((pf:ℚ) * (175/10000))) : ℤ) : ℚ) +
        ((jround ((pf:ℚ) * (4/1000)) : ℤ) : ℚ) +
        ((jround ((pf:ℚ) * (1/100)) : ℤ) : ℚ) + 300 := by
      unfold totalAt
      norm_num [defaultConfig]
    rw [htot]
    set E := jround ((pf:ℚ) * (242/10000)) with hEdef
    set S : ℤ := (if (pf:ℚ) ≤ 140000 then (0:ℤ) else jround ((pf:ℚ) * (175/10000)))
      with hSdef
    set R := jround ((pf:ℚ) * (4/1000)) with hRdef
    set H := jround ((pf:ℚ) * (1/100)) with hHdef
    have hEq : (E:ℚ) ≤ (pf:ℚ) * (242/10000) + 1/2 := jround_le _
    have hRq : (R:ℚ) ≤ (pf:ℚ) * (4/1000) + 1/2 := jround_le _
    have hHq : (H:ℚ) ≤ (pf:ℚ) * (1/100) + 1/2 := jround_le _
    have hSq : (S:ℚ) ≤ (pf:ℚ) * (175/10000) + 1/2 := by
      rw [hSdef]
      split_ifs with hsp
      · push_cast
        nlinarith
      · exact jround_le _
    by_cases hmax : (pf:ℚ) * (1/10) ≤ (pf:ℚ) - (c:ℚ)
    · rw [max_eq_left hmax]
      have hcast : ((pf:ℚ) - (c:ℚ)) + (E:ℚ) + (S:ℚ) + (R:ℚ) + (H:ℚ) + 300 =
          ((pf - c + E + S + R + H + 300 : ℤ) : ℚ) := by
        push_cast
        ring
      rw [hcast]
      have hfin : ((pf - c + E + S + R + H + 300 : ℤ) : ℚ) < 25003 := by
        push_cast
        linarith
      have hfin2 : (pf - c + E + S + R + H + 300 : ℤ) < 25003 := by exact_mod_cast hfin
      have hfin3 : (pf - c + E + S + R + H + 300 : ℤ) ≤ 25002 := by omega
      exact_mod_cast hfin3
    · push_neg at hmax
      rw [max_eq_right hmax.le]
      linarith
  · -- fixed-10%-minimum branch: target₂ was selected
    rw [if_neg hbr]
    push_neg at hbr
    have hstep := (div_le_div_iff₀ (by norm_num : (0:ℚ) < 10557/10000)
      (by norm_num : (0:ℚ) < 9/10)).mp hbr
    have hcge : (142775 : ℚ) ≤ (c : ℚ) := by
      have h2 : (142774:ℚ) < (c:ℚ) := by linarith
      have h3 : (142774:ℤ) < c := by exact_mod_cast h2
      have h4 : (142775:ℤ) ≤ c := by omega
      exact_mod_cast h4
    set pf := jround ((247000000:ℚ) / 1557) with hpfdef
    have hpfU : (pf : ℚ) ≤ 247000000/1557 + 1/2 := jround_le _
    have hpf0 : (0 : ℚ) ≤ (pf : ℚ) := by
      have h0 : 0 ≤ pf := jround_nonneg (by norm_num)
      exact_mod_cast h0
    have hpf158 : (pf : ℚ) ≤ 158638 := by
      have h1 : (pf : ℚ) < 158639 := by linarith
      have h2 : pf < 158639 := by exact_mod_cast h1
      have h3 : pf ≤ 158638 := by omega
      exact_mod_cast h3
    have htot : totalAt defaultConfig false c pf =
        max ((pf:ℚ) - (c:ℚ)) ((pf:ℚ) * (1/10)) +
        ((jround ((pf:ℚ) * (242/10000)) : ℤ) : ℚ) +
        (((if (pf:ℚ) ≤ 140000 then (0:ℤ) else jround ((pf:ℚ) * (175/10000))) : ℤ) : ℚ) +
        ((jround ((pf:ℚ) * (4/1000)) : ℤ) : ℚ) +
        ((jround ((pf:ℚ) * (1/100)) : ℤ) : ℚ) + 300 := by
      unfold totalAt
      norm_num [defaultConfig]
    rw [htot]
    set E := jround ((pf:ℚ) * (242/10000)) with hEdef
    set S : ℤ := (if (pf:ℚ) ≤ 140000 then (0:ℤ) else jround ((pf:ℚ) * (175/10000)))
      with hSdef
    set R := jround ((pf:ℚ) * (4/1000)) with hRdef
    set H := jround ((pf:ℚ) * (1/100)) with hHdef
    have hEq : (E:ℚ) ≤ (pf:ℚ) * (242/10000) + 1/2 := jround_le _
    have hRq : (R:ℚ) ≤ (pf:ℚ) * (4/1000) + 1/2 := jround_le _
    have hHq : (H:ℚ) ≤ (pf:ℚ) * (1/100) + 1/2 := jround_le _
    have hSq : (S:ℚ) ≤ (pf:ℚ) * (175/10000) + 1/2 := by
      rw [hSdef]
      split_ifs with hsp
      · push_cast
        nlinarith
      · exact jround_le _
    have hmaxle : max ((pf:ℚ) - (c:ℚ)) ((pf:ℚ) * (1/10)) ≤ 15863 + 8/10 :=
      max_le (by linarith) (by linarith)
    linarith

/-- Round-trip budget bound, with agency fee: for every non-negative credit
value, evaluating the cost total at the rounded solver target stays within
2 units of the 25000 budget (here the target is always below the stamp
exemption threshold, leaving ample slack). -/
theorem roundtrip_total_le_true (c : ℤ) (hc0 : 0 ≤ c) :
    totalAt defaultConfig true c (jround (targetQ defaultConfig true c)) ≤ 25002 := by
  have hcq : (0 : ℚ) ≤ (c : ℚ) := by exact_mod_cast hc0
  have htq : targetQ defaultConfig true c =
      (if (c:ℚ) / (9/10) < (25000 + (c:ℚ) - 300) / (11041/10000)
       then (25000 + (c:ℚ) - 300) / (11041/10000)
       else 247000000 / 2041) := by
    unfold targetQ
    norm_num [defaultConfig]
  rw [htq]
  by_cases hbr : (c:ℚ) / (9/10) < (25000 + (c:ℚ) - 300) / (11041/10000)
  · rw [if_pos hbr]
    set t1 : ℚ := (25000 + (c:ℚ) - 300) / (11041/10000) with ht1
    have hident : t1 * (11041/10000) = 24700 + (c:ℚ) := by
      rw [ht1, div_mul_cancel₀ _ (by norm_num : (11041/10000 : ℚ) ≠ 0)]
      ring
    have hA : (c:ℚ) < t1 * (9/10) := by
      have h := (div_lt_iff₀ (by norm_num : (0:ℚ) < 9/10)).mp hbr
      linarith
    have ht1pos : 0 < t1 := by
      rw [ht1]
      have h : (0:ℚ) < 25000 + (c:ℚ) - 300 := by linarith
      positivity
    have ht1lt : t1 < 247000000/2041 := by linarith
    set pf := jround t1 with hpfdef
    have hpfU : (pf : ℚ) ≤ t1 + 1/2 := jround_le t1
    have hpf0 : (0 : ℚ) ≤ (pf : ℚ) := by
      have h0 : 0 ≤ pf := jround_nonneg (le_of_lt ht1pos)
      exact_mod_cast h0
    have hpf121 : (pf : ℚ) ≤ 121019 := by
      have h1 : (pf : ℚ) < 121020 := by linarith
      have h2 : pf < 121020 := by exact_mod_cast h1
      have h3 : pf ≤ 121019 := by omega
      exact_mod_cast h3
    have htot : totalAt defaultConfig true c pf =
        max ((pf:ℚ) - (c:ℚ)) ((pf:ℚ) * (1/10)) +
        ((jround ((pf:ℚ) * (242/10000)) : ℤ) : ℚ) +
        (((if (pf:ℚ) ≤ 140000 then (0:ℤ) else jround ((pf:ℚ) * (175/10000))) : ℤ) : ℚ) +
        ((jround ((pf:ℚ) * (4/1000)) : ℤ) : ℚ) +
        ((jround ((pf:ℚ) * (484/10000)) : ℤ) : ℚ) +
        ((jround ((pf:ℚ) * (1/100)) : ℤ) : ℚ) + 300 := by
      unfold totalAt
      norm_num [defaultConfig]
    rw [htot]
    have hS0 : (if (pf:ℚ) ≤ 140000 then (0:ℤ) else jround ((pf:ℚ) * (175/10000))) = 0 :=
      if_pos (by linarith)
    rw [hS0]
    set E := jround ((pf:ℚ) * (242/10000)) with hEdef
    set R := jround ((pf:ℚ) * (4/1000)) with hRdef
    set I := jround ((pf:ℚ) * (484/10000)) with hIdef
    set H := jround ((pf:ℚ) * (1/100)) with hHdef
    have hEq : (E:ℚ) ≤ (pf:ℚ) * (242/10000) + 1/2 := jround_le _
    have hRq : (R:ℚ) ≤ (pf:ℚ) * (4/1000) + 1/2 := jround_le _
    have hIq : (I:ℚ) ≤ (pf:ℚ) * (484/10000) + 1/2 := jround_le _
    have hHq : (H:ℚ) ≤ (pf:ℚ) * (1/100) + 1/2 := jround_le _
    by_cases hmax : (pf:ℚ) * (1/10) ≤ (pf:ℚ) - (c:ℚ)
    · rw [max_eq_left hmax]
      push_cast
      linarith
    · push_neg at hmax
      rw [max_eq_right hmax.le]
      push_cast
      linarith
  · rw [if_neg hbr]
    push_neg at hbr
    have hstep := (div_le_div_iff₀ (by norm_num : (0:ℚ) < 11041/10000)
      (by norm_num : (0:ℚ) < 9/10)).mp hbr
    have hcge : (108918 : ℚ) ≤ (c : ℚ) := by
      have h2 : (108917:ℚ) < (c:ℚ) := by linarith
      have h3 : (108917:ℤ) < c := by exact_mod_cast h2
      have h4 : (108918:ℤ) ≤ c := by omega
      exact_mod_cast h4
    set pf := jround ((247000000:ℚ) / 2041) with hpfdef
    have hpfU : (pf : ℚ) ≤ 247000000/2041 + 1/2 := jround_le _
    have hpf0 : (0 : ℚ) ≤ (pf : ℚ) := by
      have h0 : 0 ≤ pf := jround_nonneg (by norm_num)
      exact_mod_cast h0
    have hpf121 : (pf : ℚ) ≤ 121019 := by
      have h1 : (pf : ℚ) < 121020 := by linarith
      have h2 : pf < 121020 := by exact_mod_cast h1
      have h3 : pf ≤ 121019 := by omega
      exact_mod_cast h3
    have htot : totalAt defaultConfig true c pf =
        max ((pf:ℚ) - (c:ℚ)) ((pf:ℚ) * (1/10)) +
        ((jround ((pf:ℚ) * (242/10000)) : ℤ) : ℚ) +
        (((if (pf:ℚ) ≤ 140000 then (0:ℤ) else jround ((pf:ℚ) * (175/10000))) : ℤ) : ℚ) +
        ((jround ((pf:ℚ) * (4/1000)) : ℤ) : ℚ) +
        ((jround ((pf:ℚ) * (484/10000)) : ℤ) : ℚ) +
        ((jround ((pf:ℚ) * (1/100)) : ℤ) : ℚ) + 300 := by
      unfold totalAt
      norm_num [defaultConfig]
    rw [htot]
    have hS0 : (if (pf:ℚ) ≤ 140000 then (0:ℤ) else jround ((pf:ℚ) * (175/10000))) = 0 :=
      if_pos (by linarith)
    rw [hS0]
    set E := jround ((pf:ℚ) * (242/10000)) with hEdef
    set R := jround ((pf:ℚ) * (4/1000)) with hRdef
    set I := jround ((pf:ℚ) * (484/10000)) with hIdef
    set H := jround ((pf:ℚ) * (1/100)) with hHdef
    have hEq : (E:ℚ) ≤ (pf:ℚ) * (242/10000) + 1/2 := jround_le _
    have hRq : (R:ℚ) ≤ (pf:ℚ) * (4/1000) + 1/2 := jround_le _
    have hIq : (I:ℚ) ≤ (pf:ℚ) * (484/10000) + 1/2 := jround_le _
    have hHq : (H:ℚ) ≤ (pf:ℚ) * (1/100) + 1/2 := jround_le _
    have hmaxle : max ((pf:ℚ) - (c:ℚ)) ((pf:ℚ) * (1/10)) ≤ 121019 * (1/10) + 1/10 :=
      max_le (by linarith) (by linarith)
    push_cast
    linarith

/-- Claim C5, amended: For every price > 0, agency-fee flag and FX rate > 0,
feeding the discount solver's rounded `targetPrice` back into the
affordability calculator (negotiation 0, same FX rate and flag) yields a cost
total within 2 units of the budget: `total ≤ presupuesto + 2`.  The
original 1-unit tolerance is too tight (see the counterexample, where the
round trip overshoots the budget by exactly 2). -/
theorem quita_roundtrip_within_two (precio : ℚ) (flag : Bool) (d : ℚ)
    (_hprecio : 0 < precio) (hd : 0 < d) :
    (calculateCosts defaultConfig
        (((calculateQuitaNecesaria defaultConfig precio flag (some d)).precioTarget : ℤ) : ℚ)
        flag (some d) 0).total ≤ defaultConfig.presupuesto + 2 := by
  have hc0 : 0 ≤ getCreditoUSD defaultConfig (some d) := by
    unfold getCreditoUSD
    apply jround_nonneg
    have hj : jsOrNum (some d) defaultConfig.dolarBase = d := by
      show (if d = 0 then defaultConfig.dolarBase else d) = d
      rw [if_neg hd.ne']
    rw [hj]
    have hca : (0:ℚ) < defaultConfig.creditoArs := by norm_num [defaultConfig]
    exact le_of_lt (div_pos hca hd)
  rw [cq_precioTarget, cc_total_totalAt]
  have harg : ((jround (targetQ defaultConfig flag (getCreditoUSD defaultConfig (some d))) :
      ℤ) : ℚ) * (1 - 0 / 100) =
      ((jround (targetQ defaultConfig flag (getCreditoUSD defaultConfig (some d))) : ℤ) : ℚ) := by
    norm_num
  rw [harg, jround_intCast]
  have hp : defaultConfig.presupuesto + 2 = 25002 := by norm_num [defaultConfig]
  rw [hp]
  cases flag with
  | false => exact roundtrip_total_le_false _ hc0
  | true => exact roundtrip_total_le_true _ hc0

/-- Witness for C5 (amended): the base FX rate 1450, no agency fee. -/
theorem quita_roundtrip_within_two_witness :
    (calculateCosts defaultConfig
        (((calculateQuitaNecesaria defaultConfig 150000 false (some 1450)).precioTarget :
          ℤ) : ℚ)
        false (some 1450) 0).total ≤ defaultConfig.presupuesto + 2 :=
  quita_roundtrip_within_two 150000 false 1450 (by norm_num) (by norm_num)

/-- Counterexample to C5 as stated: at the FX rate `126000000/123256`
(credit 123256 USD) with no agency fee, the solver's target price is 140150;
feeding it back into the cost calculator gives a total of 25002 — two units
over the 25000 budget — so `ok` is false and even a 1-unit tolerance on the
budget comparison is exceeded. -/
theorem quita_roundtrip_counterexample :
    (calculateQuitaNecesaria defaultConfig 150000 false
        (some (126000000/123256))).precioTarget = 140150 ∧
    (calculateCosts defaultConfig 140150 false (some (126000000/123256)) 0).total = 25002 ∧
    (calculateCosts defaultConfig 140150 false (some (126000000/123256)) 0).ok = false ∧
    ¬ ((calculateCosts defaultConfig 140150 false (some (126000000/123256)) 0).total ≤
        defaultConfig.presupuesto + 1) := by
  have hd0 : ((126000000 : ℚ)/123256) ≠ 0 := by norm_num
  have hj : jsOrNum (some ((126000000 : ℚ)/123256)) defaultConfig.dolarBase =
      126000000/123256 := by
    show (if (126000000 : ℚ)/123256 = 0 then defaultConfig.dolarBase
          else (126000000 : ℚ)/123256) = 126000000/123256
    rw [if_neg hd0]
  have hc : getCreditoUSD defaultConfig (some (126000000/123256)) = 123256 := by
    unfold getCreditoUSD
    rw [hj]
    exact jround_eval (by norm_num [defaultConfig]) (by norm_num [defaultConfig])
  have htgtq : targetQ defaultConfig false 123256 = 1479560000/10557 := by
    unfold targetQ
    norm_num [defaultConfig]
  have htgt : (calculateQuitaNecesaria defaultConfig 150000 false
      (some (126000000/123256))).precioTarget = 140150 := by
    rw [cq_precioTarget, hc, htgtq]
    exact jround_eval (by norm_num) (by norm_num)
  have hpf : (calculateCosts defaultConfig 140150 false (some (126000000/123256)) 0).precio
      = 140150 := by
    rw [cc_precio]
    exact jround_eval (by norm_num) (by norm_num)
  have hcred : (calculateCosts defaultConfig 140150 false
      (some (126000000/123256)) 0).creditoUSD = 123256 := by
    rw [cc_creditoUSD]
    exact hc
  have htu : (calculateCosts defaultConfig 140150 false (some (126000000/123256)) 0).tu10
      = 16894 := by
    rw [cc_tu10, hpf, hcred]
    push_cast
    rw [max_eq_left (by norm_num)]
    norm_num
  have hE : (calculateCosts defaultConfig 140150 false (some (126000000/123256)) 0).escr
      = 3392 := by
    rw [cc_escr, hpf]
    exact jround_eval (by push_cast; norm_num [defaultConfig])
      (by push_cast; norm_num [defaultConfig])
  have hS : (calculateCosts defaultConfig 140150 false (some (126000000/123256)) 0).sell
      = 2453 := by
    rw [cc_sell, hpf, if_neg (by push_cast; norm_num [defaultConfig])]
    exact jround_eval (by push_cast; norm_num [defaultConfig])
      (by push_cast; norm_num [defaultConfig])
  have hR : (calculateCosts defaultConfig 140150 false (some (126000000/123256)) 0).reg
      = 561 := by
    rw [cc_reg, hpf]
    exact jround_eval (by push_cast; norm_num [defaultConfig])
      (by push_cast; norm_num [defaultConfig])
  have hI : (calculateCosts defaultConfig 140150 false (some (126000000/123256)) 0).inmob
      = 0 := by
    rw [cc_inmob]
    simp
  have hH : (calculateCosts defaultConfig 140150 false (some (126000000/123256)) 0).hip
      = 1402 := by
    rw [cc_hip, hpf]
    exact jround_eval (by push_cast; norm_num [defaultConfig])
      (by push_cast; norm_num [defaultConfig])
  have htotal : (calculateCosts defaultConfig 140150 false
      (some (126000000/123256)) 0).total = 25002 := by
    rw [cc_total, htu, hE, hS, hR, hI, hH, cc_cert]
    push_cast
    norm_num [defaultConfig]
  refine ⟨htgt, htotal, ?_, ?_⟩
  · rw [cc_ok, htotal]
    rw [decide_eq_false]
    norm_num [defaultConfig]
  · rw [htotal]
    norm_num [defaultConfig]

end Casita
